import Mathlib

/-!
Shallow embedding of the `ContentfulApp` class from
`src/universal_mcp_contentful/app.py` (repository `universal-mcp/contentful`).

Modelling choices:
  - GraphQL variable mappings and results are ordered association lists of
    string keys to JSON-like `GqlValue` values (Python dicts with insertion
    order; all keys inserted here are distinct).
  - The injected GraphQL execution collaborator (`self.query`, inherited from
    `GraphQLApplication`) is a function argument of type `QueryFn`; a raised
    exception is `Except.error`.
  - The credential provider (`integration.get_credentials()`) is modelled in a
    state monad counting how many times the provider is queried.
  - Python string helpers (`replace` with one-character patterns, `split`,
    `lower`, `upper`, `capitalize`) are translated character-wise; Unicode
    case mappings are modelled on the ASCII range, where they agree with
    Python. Whitespace is the character set Python `str.split()` splits on.
  - Python truthiness of optional strings, dicts and lists (`if locale:`,
    `if where:`, `if order:`) is made explicit via `pyTruthyOptStr`,
    `pyTruthyOptDict`, `pyTruthyOptList`.
-/

namespace Contentful

/-- JSON-like values used for GraphQL variables and results. -/
inductive GqlValue where
  | null
  | str (s : String)
  | int (n : Int)
  | bool (b : Bool)
  | dict (entries : List (String × GqlValue))
  | list (items : List GqlValue)

/-- Exceptions raised by collaborators are carried as plain messages. -/
abbrev GqlError := String

/-- A GraphQL result is a JSON object: an ordered association list. -/
abbrev GqlResult := List (String × GqlValue)

/-- A GraphQL variables mapping. -/
abbrev VarMap := List (String × GqlValue)

/-- The injected execution collaborator `self.query(document, variables)`. -/
abbrev QueryFn := String → Option VarMap → Except GqlError GqlResult

/-- Boolean test whether a value is the JSON null (Python `None`). -/
def isNullV : GqlValue → Bool
  | .null => true
  | _ => false

/-- Boolean key-membership test on a variables mapping. -/
def hasKey (m : VarMap) (k : String) : Bool :=
  m.any (fun e => e.fst == k)

/-- Characters Python `str.split()` treats as whitespace. -/
def pyIsSpace (c : Char) : Bool :=
  c = ' ' || c = '\t' || c = '\n' || c.toNat = 13 || c.toNat = 11 || c.toNat = 12 ||
  c.toNat = 28 || c.toNat = 29 || c.toNat = 30 || c.toNat = 31 || c.toNat = 133 ||
  c.toNat = 160 || c.toNat = 5760 || (8192 ≤ c.toNat && c.toNat ≤ 8202) ||
  c.toNat = 8232 || c.toNat = 8233 || c.toNat = 8239 || c.toNat = 8287 ||
  c.toNat = 12288

/-- Python `str.lower()` on one character (ASCII range). -/
def pyLowerChar (c : Char) : Char :=
  if 'A' ≤ c && c ≤ 'Z' then Char.ofNat (c.toNat + 32) else c

/-- Python `str.upper()` on one character (ASCII range). -/
def pyUpperChar (c : Char) : Char :=
  if 'a' ≤ c && c ≤ 'z' then Char.ofNat (c.toNat - 32) else c

/-- Python `str.lower()` on a whole string. -/
def pyLowerStr (s : String) : String :=
  String.mk (s.data.map pyLowerChar)

/-- Python `str.upper()` on a whole string. -/
def pyUpperStr (s : String) : String :=
  String.mk (s.data.map pyUpperChar)

/-- Python `str.capitalize()`: first character upper-cased, rest lower-cased. -/
def pyCapitalize (s : String) : String :=
  match s.data with
  | [] => ""
  | c :: cs => String.mk (pyUpperChar c :: cs.map pyLowerChar)

/-- Lower-case the first character of a character list, keep the rest. -/
def lowerFirstL : List Char → List Char
  | [] => []
  | c :: cs => pyLowerChar c :: cs

/-- Upper-case the first character of a character list, keep the rest. -/
def upperFirstL : List Char → List Char
  | [] => []
  | c :: cs => pyUpperChar c :: cs

/-- Python `s.replace(a, b)` for one-character pattern and replacement. -/
def pyReplaceChar (s : String) (a b : Char) : String :=
  String.mk (s.data.map (fun c => if c = a then b else c))

/-- The normalization step `s.replace("-", " ").replace("_", " ")`. -/
def pyNormSep (s : String) : String :=
  pyReplaceChar (pyReplaceChar s '-' ' ') '_' ' '

/-- Helper for `pySplit`: accumulates the current word reversed. -/
def pySplitCore : List Char → List Char → List String
  | [], cur => if cur.isEmpty then [] else [String.mk cur.reverse]
  | c :: cs, cur =>
      if pyIsSpace c then
        if cur.isEmpty then pySplitCore cs []
        else String.mk cur.reverse :: pySplitCore cs []
      else pySplitCore cs (c :: cur)

/-- Python `str.split()` with no arguments: split on whitespace runs,
discarding empty pieces. -/
def pySplit (s : String) : List String :=
  pySplitCore s.data []

/-- Truthiness of an optional string (Python `if s:`). -/
def pyTruthyOptStr : Option String → Bool
  | none => false
  | some s => !s.isEmpty

/-- Truthiness of an optional dict (Python `if where:`). -/
def pyTruthyOptDict : Option (List (String × GqlValue)) → Bool
  | none => false
  | some l => !l.isEmpty

/-- Truthiness of an optional list (Python `if order:`). -/
def pyTruthyOptList : Option (List String) → Bool
  | none => false
  | some l => !l.isEmpty

/-- Python `a or b` on two optional strings: `b` when `a` is falsy. -/
def pyOrStr (a b : Option String) : Option String :=
  if pyTruthyOptStr a then a else b

/-- Embedding of `ContentfulApp._to_camel_case`. The branch for a single
token with no separators returns `s[0].lower() + s[1:]` for strings longer
than one character and `s.lower()` otherwise; the multi-token branch lowers
the first token and capitalizes the rest. -/
def to_camel_case (s0 : String) : String :=
  let s := pyNormSep s0
  let parts := pySplit s
  if parts.isEmpty then ""
  else if parts.length = 1 ∧ parts.headD "" = s ∧ s ≠ "" then
    if s.length > 1 then String.mk (lowerFirstL s.data) else pyLowerStr s
  else
    pyLowerStr (parts.headD "") ++ String.join ((parts.drop 1).map pyCapitalize)

/-- Embedding of `ContentfulApp._to_pascal_case`. -/
def to_pascal_case (s0 : String) : String :=
  let s := pyNormSep s0
  let parts := pySplit s
  if parts.isEmpty then ""
  else if parts.length = 1 ∧ parts.headD "" = s ∧ s ≠ "" then
    if s.length > 1 then String.mk (upperFirstL s.data) else pyUpperStr s
  else
    String.join (parts.map pyCapitalize)

/-- Credentials mapping returned by the provider. `none` models an absent
key; defaults are applied at the `.get(...)` call sites, as in the source. -/
structure Credentials where
  space_id : Option String
  access_token : Option String
  api_key : Option String
  environment_id : Option String
  is_eu_customer : Option Bool

/-- The injected integration object holding the credential provider. -/
structure Integration where
  credentials : Credentials

/-- Effect monad counting how many times the credential provider is queried. -/
abbrev ProviderM := StateM Nat

/-- The provider call `integration.get_credentials()`: returns the
credentials and increments the query counter. -/
def Integration.get_credentials (i : Integration) : ProviderM Credentials :=
  fun n => (i.credentials, n + 1)

/-- Instance attributes set by `ContentfulApp.__init__` (including the
`base_url` stored by the superclass constructor). -/
structure ContentfulApp where
  space_id : Option String
  environment_id : String
  access_token_attr : Option String
  base_url : String

/-- Embedding of `ContentfulApp.__init__`, line by line. With no integration
the placeholder base URL is stored; otherwise the provider is queried once,
attributes are extracted with Python `.get` defaults, and the base URL is
either the missing-space-id placeholder or the real endpoint URL. -/
def ContentfulApp.init (integration : Option Integration) : ProviderM ContentfulApp := do
  match integration with
  | none =>
      pure { space_id := none, environment_id := "master", access_token_attr := none,
             base_url := "http://mock.contentful/graphql/no-integration-provided" }
  | some integ =>
      let credentials ← integ.get_credentials
      let space_id := credentials.space_id
      let access_token := pyOrStr credentials.access_token credentials.api_key
      let environment_id := credentials.environment_id.getD "master"
      let is_eu_customer := credentials.is_eu_customer.getD false
      let base_url :=
        if pyTruthyOptStr space_id = false then
          "http://mock.contentful/graphql/missing-space-id"
        else
          let contentful_api_domain :=
            if is_eu_customer then "graphql.eu.contentful.com" else "graphql.contentful.com"
          "https://" ++ contentful_api_domain ++ "/content/v1/spaces/" ++ space_id.getD ""
            ++ "/environments/" ++ environment_id
      pure { space_id := space_id, environment_id := environment_id,
             access_token_attr := access_token, base_url := base_url }

/-- The instance attributes after construction, starting from a fresh
provider-call counter. -/
def initState (integration : Option Integration) : ContentfulApp :=
  ((ContentfulApp.init integration).run 0).1

/-- Number of provider queries performed by construction alone. -/
def initProviderCalls (integration : Option Integration) : Nat :=
  ((ContentfulApp.init integration).run 0).2

/-- The per-call GraphQL request value: document string plus variables. -/
structure QueryRequest where
  document : String
  vars : VarMap

/-- Document and variables built by `ContentfulApp.get_entry` before it
delegates to `self.query`. The document string reproduces the Python
f-string exactly, including indentation and the trailing newline block. -/
def get_entry_request (content_type_id entry_id fields_to_select : String)
    (locale : Option String) (preview : Bool) : QueryRequest :=
  let query_field := to_camel_case content_type_id
  let query_gql :=
    "\n            query GetEntryById($id: String!, $locale: String, $preview: Boolean) \x7b\n                "
    ++ query_field
    ++ "(id: $id, locale: $locale, preview: $preview) \x7b\n                    "
    ++ fields_to_select
    ++ "\n                \x7d\n            \x7d\n        "
  let vars : VarMap := [("id", GqlValue.str entry_id), ("preview", GqlValue.bool preview)]
  let vars :=
    if pyTruthyOptStr locale then vars ++ [("locale", GqlValue.str (locale.getD ""))]
    else vars
  ⟨query_gql, vars⟩

/-- Embedding of `ContentfulApp.get_entry`: builds the request and returns
`self.query(query_gql, variables=variables)` unchanged. -/
def get_entry (query : QueryFn) (content_type_id entry_id fields_to_select : String)
    (locale : Option String) (preview : Bool) : Except GqlError GqlResult :=
  let r := get_entry_request content_type_id entry_id fields_to_select locale preview
  query r.document (some r.vars)

/-- Document and variables built by `ContentfulApp.get_entries_collection`. -/
def get_entries_collection_request (content_type_id fields_to_select_for_item : String)
    (limit skip : Option Int) (whereArg : Option (List (String × GqlValue)))
    (order : Option (List String)) (locale : Option String) (preview : Bool) : QueryRequest :=
  let collection_field := to_camel_case content_type_id ++ "Collection"
  let filter_type := to_pascal_case content_type_id ++ "Filter"
  let order_enum_type := to_pascal_case content_type_id ++ "Order"
  let query_gql :=
    "\n            query GetEntries(\n                $limit: Int,\n                $skip: Int,\n                $where: "
    ++ filter_type
    ++ ",\n                $order: ["
    ++ order_enum_type
    ++ "!],\n                $locale: String,\n                $preview: Boolean\n            ) \x7b\n                "
    ++ collection_field
    ++ "(\n                    limit: $limit,\n                    skip: $skip,\n                    where: $where,\n                    order: $order,\n                    locale: $locale,\n                    preview: $preview\n                ) \x7b\n                    total\n                    skip\n                    limit\n                    items \x7b\n                        "
    ++ fields_to_select_for_item
    ++ "\n                    \x7d\n                \x7d\n            \x7d\n        "
  let vars : VarMap := [("preview", GqlValue.bool preview)]
  let vars :=
    match limit with
    | some n => vars ++ [("limit", GqlValue.int n)]
    | none => vars
  let vars :=
    match skip with
    | some n => vars ++ [("skip", GqlValue.int n)]
    | none => vars
  let vars :=
    if pyTruthyOptDict whereArg then vars ++ [("where", GqlValue.dict (whereArg.getD []))]
    else vars
  let vars :=
    if pyTruthyOptList order then
      vars ++ [("order", GqlValue.list ((order.getD []).map GqlValue.str))]
    else vars
  let vars :=
    if pyTruthyOptStr locale then vars ++ [("locale", GqlValue.str (locale.getD ""))]
    else vars
  ⟨query_gql, vars⟩

/-- Embedding of `ContentfulApp.get_entries_collection`. -/
def get_entries_collection (query : QueryFn) (content_type_id fields_to_select_for_item : String)
    (limit skip : Option Int) (whereArg : Option (List (String × GqlValue)))
    (order : Option (List String)) (locale : Option String) (preview : Bool) :
    Except GqlError GqlResult :=
  let r := get_entries_collection_request content_type_id fields_to_select_for_item
    limit skip whereArg order locale preview
  query r.document (some r.vars)

/-- Document and variables built by `ContentfulApp.get_asset`. -/
def get_asset_request (asset_id fields_to_select : String) (preview : Bool) : QueryRequest :=
  let query_gql :=
    "\n            query GetAssetById($id: String!, $preview: Boolean) \x7b\n                asset(id: $id, preview: $preview) \x7b\n                    "
    ++ fields_to_select
    ++ "\n                \x7d\n            \x7d\n        "
  let vars : VarMap := [("id", GqlValue.str asset_id), ("preview", GqlValue.bool preview)]
  ⟨query_gql, vars⟩

/-- Embedding of `ContentfulApp.get_asset`. -/
def get_asset (query : QueryFn) (asset_id fields_to_select : String) (preview : Bool) :
    Except GqlError GqlResult :=
  let r := get_asset_request asset_id fields_to_select preview
  query r.document (some r.vars)

/-- Document and variables built by `ContentfulApp.get_assets_collection`. -/
def get_assets_collection_request (fields_to_select_for_item : String)
    (limit skip : Option Int) (whereArg : Option (List (String × GqlValue)))
    (order : Option (List String)) (locale : Option String) (preview : Bool) : QueryRequest :=
  let query_gql :=
    "\n            query GetAssets(\n                $limit: Int,\n                $skip: Int,\n                $where: AssetFilter,\n                $order: [AssetOrder!],\n                $locale: String,\n                $preview: Boolean\n            ) \x7b\n                assetCollection(\n                    limit: $limit,\n                    skip: $skip,\n                    where: $where,\n                    order: $order,\n                    locale: $locale,\n                    preview: $preview\n                ) \x7b\n                    total\n                    skip\n                    limit\n                    items \x7b\n                        "
    ++ fields_to_select_for_item
    ++ "\n                    \x7d\n                \x7d\n            \x7d\n        "
  let vars : VarMap := [("preview", GqlValue.bool preview)]
  let vars :=
    match limit with
    | some n => vars ++ [("limit", GqlValue.int n)]
    | none => vars
  let vars :=
    match skip with
    | some n => vars ++ [("skip", GqlValue.int n)]
    | none => vars
  let vars :=
    if pyTruthyOptDict whereArg then vars ++ [("where", GqlValue.dict (whereArg.getD []))]
    else vars
  let vars :=
    if pyTruthyOptList order then
      vars ++ [("order", GqlValue.list ((order.getD []).map GqlValue.str))]
    else vars
  let vars :=
    if pyTruthyOptStr locale then vars ++ [("locale", GqlValue.str (locale.getD ""))]
    else vars
  ⟨query_gql, vars⟩

/-- Embedding of `ContentfulApp.get_assets_collection`. -/
def get_assets_collection (query : QueryFn) (fields_to_select_for_item : String)
    (limit skip : Option Int) (whereArg : Option (List (String × GqlValue)))
    (order : Option (List String)) (locale : Option String) (preview : Bool) :
    Except GqlError GqlResult :=
  let r := get_assets_collection_request fields_to_select_for_item
    limit skip whereArg order locale preview
  query r.document (some r.vars)

/-- Embedding of `ContentfulApp.execute_graphql_query`: a pure pass-through
to the collaborator with the caller-supplied document and vars. -/
def execute_graphql_query (query : QueryFn) (query_string : String)
    (vars : Option VarMap) : Except GqlError GqlResult :=
  query query_string vars

/-- Document template for entry collections, written from the words of the
spec: the caller-visible shape with holes for the collection field, the
filter type, the order enum type and the item field selection. -/
def entriesCollectionDocSpec (collection_field filter_type order_enum_type fields : String) :
    String :=
  "\n            query GetEntries(\n                $limit: Int,\n                $skip: Int,\n                $where: "
  ++ filter_type
  ++ ",\n                $order: ["
  ++ order_enum_type
  ++ "!],\n                $locale: String,\n                $preview: Boolean\n            ) \x7b\n                "
  ++ collection_field
  ++ "(\n                    limit: $limit,\n                    skip: $skip,\n                    where: $where,\n                    order: $order,\n                    locale: $locale,\n                    preview: $preview\n                ) \x7b\n                    total\n                    skip\n                    limit\n                    items \x7b\n                        "
  ++ fields
  ++ "\n                    \x7d\n                \x7d\n            \x7d\n        "

/-- Document template for the asset collection, written from the words of
the spec: fixed collection field `assetCollection`, fixed type names
`AssetFilter` and `AssetOrder`, independent of all arguments except the item
field selection. -/
def assetsCollectionDocSpec (fields : String) : String :=
  "\n            query GetAssets(\n                $limit: Int,\n                $skip: Int,\n                $where: AssetFilter,\n                $order: [AssetOrder!],\n                $locale: String,\n                $preview: Boolean\n            ) \x7b\n                assetCollection(\n                    limit: $limit,\n                    skip: $skip,\n                    where: $where,\n                    order: $order,\n                    locale: $locale,\n                    preview: $preview\n                ) \x7b\n                    total\n                    skip\n                    limit\n                    items \x7b\n                        "
  ++ fields
  ++ "\n                    \x7d\n                \x7d\n            \x7d\n        "


/-- Unfolding lemma: the instance attributes produced by construction with an
integration, as a function of the credentials. Holds by computation. -/
theorem initState_some (c : Credentials) :
    initState (some ⟨c⟩) =
      { space_id := c.space_id,
        environment_id := c.environment_id.getD "master",
        access_token_attr := pyOrStr c.access_token c.api_key,
        base_url :=
          if pyTruthyOptStr c.space_id = false then
            "http://mock.contentful/graphql/missing-space-id"
          else
            "https://"
              ++ (if c.is_eu_customer.getD false then "graphql.eu.contentful.com"
                  else "graphql.contentful.com")
              ++ "/content/v1/spaces/" ++ c.space_id.getD ""
              ++ "/environments/" ++ c.environment_id.getD "master" } := rfl

/-- Claim C1 counterexample: the operations of the query facade do not catch
collaborator exceptions. With a collaborator that raises, `get_entry`
returns the raw raised error itself (the Python method body is a bare
`return self.query(...)` with no try/except), not a structured value with an
`error` key: the exception propagates to the caller, so the claim that every
operation catches any collaborator exception and converts it is false. -/
theorem claim1_counterexample :
    get_entry (fun _ _ => Except.error "network failure") "blog-post" "e1" "title" none false
      = Except.error "network failure" := rfl

/-- Claim C1 (amended): no operation of the query facade catches collaborator
exceptions. Each of `get_entry`, `get_entries_collection`, `get_asset`,
`get_assets_collection` and `execute_graphql_query` returns the collaborator
result unchanged, so an exception raised by the collaborator propagates
as-is to the caller and no structured error value is ever produced by this
layer. -/
theorem claim1_error_propagation (e : GqlError) (ct eid fs fi qs : String)
    (limit skip : Option Int) (w : Option (List (String × GqlValue)))
    (ord : Option (List String)) (loc : Option String) (p : Bool) (v : Option VarMap) :
    get_entry (fun _ _ => Except.error e) ct eid fs loc p = Except.error e ∧
    get_entries_collection (fun _ _ => Except.error e) ct fi limit skip w ord loc p
      = Except.error e ∧
    get_asset (fun _ _ => Except.error e) eid fs p = Except.error e ∧
    get_assets_collection (fun _ _ => Except.error e) fi limit skip w ord loc p
      = Except.error e ∧
    execute_graphql_query (fun _ _ => Except.error e) qs v = Except.error e :=
  ⟨rfl, rfl, rfl, rfl, rfl⟩

/-- Claim C2 counterexample: there is no readiness check. On an instance
whose construction recorded a configuration failure (no integration, so the
placeholder base URL was stored), `get_entry` still delegates to the
collaborator and returns its value unchanged; that value contains no `error`
key describing an initialization failure, so the claim that every operation
first checks readiness and returns a structured initialization error is
false. -/
theorem claim2_counterexample :
    (initState none).base_url = "http://mock.contentful/graphql/no-integration-provided" ∧
    get_entry (fun _ _ => Except.ok [("data", GqlValue.str "payload")])
        "blog-post" "e1" "title" none false
      = Except.ok [("data", GqlValue.str "payload")] ∧
    List.lookup "error" [("data", GqlValue.str "payload")] = (none : Option GqlValue) :=
  ⟨rfl, rfl, rfl⟩

/-- Claim C2 (amended): the operations perform no readiness check at all.
There is no ensureReady; every operation unconditionally passes its
constructed document and variables to the execution collaborator and returns
the collaborator result, regardless of configuration state; configuration
failure is recorded only as a placeholder base URL at construction time. -/
theorem claim2_unconditional_delegation (q : QueryFn) (ct eid fs fi qs : String)
    (limit skip : Option Int) (w : Option (List (String × GqlValue)))
    (ord : Option (List String)) (loc : Option String) (p : Bool) (v : Option VarMap) :
    get_entry q ct eid fs loc p
      = q (get_entry_request ct eid fs loc p).document
          (some (get_entry_request ct eid fs loc p).vars) ∧
    get_entries_collection q ct fi limit skip w ord loc p
      = q (get_entries_collection_request ct fi limit skip w ord loc p).document
          (some (get_entries_collection_request ct fi limit skip w ord loc p).vars) ∧
    get_asset q eid fs p
      = q (get_asset_request eid fs p).document (some (get_asset_request eid fs p).vars) ∧
    get_assets_collection q fi limit skip w ord loc p
      = q (get_assets_collection_request fi limit skip w ord loc p).document
          (some (get_assets_collection_request fi limit skip w ord loc p).vars) ∧
    execute_graphql_query q qs v = q qs v :=
  ⟨rfl, rfl, rfl, rfl, rfl⟩

/-- Claim C3 counterexample: credential resolution is not lazy. The claim
says the resolved configuration is created empty at construction and the
provider is first queried on first use of an operation; but construction
itself (`__init__`) already queries the provider once, so the provider call
count directly after construction is 1, not 0. -/
theorem claim3_counterexample :
    initProviderCalls (some ⟨⟨none, none, none, none, none⟩⟩) = 1 := rfl

/-- Claim C3 (amended): credential resolution is eager and one-shot. When an
integration is supplied the provider is queried exactly once, during
construction, and never again (no operation touches the provider); with no
integration it is never queried. When both `access_token` and `api_key` are
missing, construction still completes and the stored access token attribute
is empty; there is no ensureReady readiness check that could report this on
later calls. -/
theorem claim3_eager_one_shot (c : Credentials)
    (hat : c.access_token = none) (hak : c.api_key = none) :
    initProviderCalls (some ⟨c⟩) = 1 ∧ initProviderCalls none = 0 ∧
    (initState (some ⟨c⟩)).access_token_attr = none := by
  refine ⟨rfl, rfl, ?_⟩
  simp [initState_some, pyOrStr, pyTruthyOptStr, hat, hak]

/-- Witness for the amended claim C3 at concrete credentials missing both
token fields. -/
theorem claim3_eager_one_shot_witness :
    initProviderCalls (some ⟨⟨some "spc", none, none, none, none⟩⟩) = 1 ∧
    initProviderCalls none = 0 ∧
    (initState (some ⟨⟨some "spc", none, none, none, none⟩⟩)).access_token_attr = none :=
  claim3_eager_one_shot ⟨some "spc", none, none, none, none⟩ rfl rfl

/-- Claim C4: for credentials with a non-empty `space_id`, the constructed
base URL is `https://{domain}/content/v1/spaces/{space_id}/environments/{environment_id}`
with `environment_id` defaulting to `master` when absent and the domain
chosen by `is_eu_customer` (EU domain exactly when true, default domain when
false or omitted; `getD false` realizes the omission default). -/
theorem claim4_base_url (c : Credentials) (sid : String)
    (hs : c.space_id = some sid) (hne : sid.isEmpty = false) :
    (initState (some ⟨c⟩)).base_url
      = "https://"
        ++ (if c.is_eu_customer.getD false then "graphql.eu.contentful.com"
            else "graphql.contentful.com")
        ++ "/content/v1/spaces/" ++ sid ++ "/environments/" ++ c.environment_id.getD "master" := by
  simp [initState_some, pyTruthyOptStr, hs, hne]

/-- Witness for claim C4 at concrete credentials: default environment and
default (non-EU) domain. -/
theorem claim4_base_url_witness :
    (initState (some ⟨⟨some "spc", some "tok", none, none, none⟩⟩)).base_url
      = "https://graphql.contentful.com/content/v1/spaces/spc/environments/master" := by
  have h := claim4_base_url ⟨some "spc", some "tok", none, none, none⟩ "spc" rfl rfl
  exact h.trans (by decide)

/-- Claim C7: the case converters satisfy the concrete test vectors of the
spec. Both converters are total functions over all strings by construction
(they are plain Lean functions with no error path). -/
theorem claim7_case_conversion_vectors :
    to_camel_case "blog-post" = "blogPost" ∧
    to_camel_case "blog_post" = "blogPost" ∧
    to_camel_case "" = "" ∧
    to_camel_case "a" = "a" ∧
    to_pascal_case "blog-post" = "BlogPost" ∧
    to_pascal_case "x" = "X" := by
  refine ⟨?_, ?_, ?_, ?_, ?_, ?_⟩ <;> decide

/-- Claim C8: for every content type identifier the entry-collection
document is the fixed template instantiated with collection field
`toCamelCase(id) ++ "Collection"`, filter type `toPascalCase(id) ++ "Filter"`
and order enum `toPascalCase(id) ++ "Order"`, while the asset-collection
document is the fixed template with field `assetCollection` and type names
`AssetFilter` and `AssetOrder`, independent of every argument except the
item field selection. -/
theorem claim8_name_derivation (content_type_id fields : String)
    (limit skip : Option Int) (w : Option (List (String × GqlValue)))
    (ord : Option (List String)) (loc : Option String) (p : Bool) :
    (get_entries_collection_request content_type_id fields limit skip w ord loc p).document
      = entriesCollectionDocSpec (to_camel_case content_type_id ++ "Collection")
          (to_pascal_case content_type_id ++ "Filter")
          (to_pascal_case content_type_id ++ "Order") fields
    ∧ (get_assets_collection_request fields limit skip w ord loc p).document
      = assetsCollectionDocSpec fields :=
  ⟨rfl, rfl⟩

/-- Claim C9: the end-to-end vector. `get_entry` on content type
`blog-post`, entry id `e1`, selection `sys { id } title`, default locale
(None) and default preview (False) passes to the collaborator exactly the
shown document, whose single top-level selected field is `blogPost`, and
exactly the variables mapping with the keys `id` and `preview` (no `locale`
key). The final conjunct states that this request is precisely what
`get_entry` hands to the execution collaborator. -/
theorem claim9_fetch_entry_end_to_end :
    (get_entry_request "blog-post" "e1" "sys \x7b id \x7d title" none false).document
      = "\n            query GetEntryById($id: String!, $locale: String, $preview: Boolean) \x7b\n                blogPost(id: $id, locale: $locale, preview: $preview) \x7b\n                    sys \x7b id \x7d title\n                \x7d\n            \x7d\n        "
    ∧ (get_entry_request "blog-post" "e1" "sys \x7b id \x7d title" none false).vars
      = [("id", GqlValue.str "e1"), ("preview", GqlValue.bool false)]
    ∧ (∀ q : QueryFn, get_entry q "blog-post" "e1" "sys \x7b id \x7d title" none false
        = q (get_entry_request "blog-post" "e1" "sys \x7b id \x7d title" none false).document
            (some (get_entry_request "blog-post" "e1" "sys \x7b id \x7d title" none false).vars)) :=
  ⟨rfl, rfl, fun _ => rfl⟩

/-- Claim C10: construction never raises for missing configuration. With no
integration the placeholder URL for a missing integration is stored; with
credentials whose `space_id` is falsy (absent or empty) the missing-space-id
placeholder is stored; and with a non-empty `space_id` but both
`access_token` and `api_key` absent, the real base URL is still constructed
from `space_id`. -/
theorem claim10_construction_never_raises (c1 c2 : Credentials) (sid : String)
    (h1 : pyTruthyOptStr c1.space_id = false)
    (h2 : c2.space_id = some sid) (h2b : sid.isEmpty = false)
    (_h2c : c2.access_token = none) (_h2d : c2.api_key = none) :
    (initState none).base_url = "http://mock.contentful/graphql/no-integration-provided" ∧
    (initState (some ⟨c1⟩)).base_url = "http://mock.contentful/graphql/missing-space-id" ∧
    (initState (some ⟨c2⟩)).base_url
      = "https://"
        ++ (if c2.is_eu_customer.getD false then "graphql.eu.contentful.com"
            else "graphql.contentful.com")
        ++ "/content/v1/spaces/" ++ sid ++ "/environments/" ++ c2.environment_id.getD "master" := by
  refine ⟨rfl, ?_, ?_⟩
  · simp [initState_some, h1]
  · simp [initState_some, pyTruthyOptStr, h2, h2b]

/-- Witness for claim C10: both placeholder branches and the token-less real
URL branch at concrete credentials. -/
theorem claim10_construction_never_raises_witness :
    (initState none).base_url = "http://mock.contentful/graphql/no-integration-provided" ∧
    (initState (some ⟨⟨none, some "t", none, none, none⟩⟩)).base_url
      = "http://mock.contentful/graphql/missing-space-id" ∧
    (initState (some ⟨⟨some "spc", none, none, none, none⟩⟩)).base_url
      = "https://graphql.contentful.com/content/v1/spaces/spc/environments/master" := by
  have h := claim10_construction_never_raises ⟨none, some "t", none, none, none⟩
    ⟨some "spc", none, none, none, none⟩ "spc" rfl rfl rfl rfl rfl
  exact ⟨h.1, h.2.1, h.2.2.trans (by decide)⟩

/-- Claim C5: the variables mapping built by `get_entries_collection` and by
`get_assets_collection` contains the key of an optional parameter exactly
when that parameter is present in the Python sense (`limit` and `skip`:
not None; `where` and `order`: non-empty; `locale`: non-empty string). In
particular a call with `limit=None` and `skip=None` yields a mapping with
neither the key `limit` nor the key `skip`, and no entry of the mapping is
ever the null value, so omitted optionals never appear as explicit nulls. -/
theorem claim5_optional_vars_omitted (ct fi : String) (limit skip : Option Int)
    (w : Option (List (String × GqlValue))) (ord : Option (List String))
    (loc : Option String) (p : Bool) :
    (hasKey (get_entries_collection_request ct fi limit skip w ord loc p).vars "limit"
        = limit.isSome ∧
     hasKey (get_entries_collection_request ct fi limit skip w ord loc p).vars "skip"
        = skip.isSome ∧
     hasKey (get_entries_collection_request ct fi limit skip w ord loc p).vars "where"
        = pyTruthyOptDict w ∧
     hasKey (get_entries_collection_request ct fi limit skip w ord loc p).vars "order"
        = pyTruthyOptList ord ∧
     hasKey (get_entries_collection_request ct fi limit skip w ord loc p).vars "locale"
        = pyTruthyOptStr loc ∧
     (get_entries_collection_request ct fi limit skip w ord loc p).vars.all
        (fun kv => !isNullV kv.snd) = true) ∧
    (hasKey (get_assets_collection_request fi limit skip w ord loc p).vars "limit"
        = limit.isSome ∧
     hasKey (get_assets_collection_request fi limit skip w ord loc p).vars "skip"
        = skip.isSome ∧
     hasKey (get_assets_collection_request fi limit skip w ord loc p).vars "where"
        = pyTruthyOptDict w ∧
     hasKey (get_assets_collection_request fi limit skip w ord loc p).vars "order"
        = pyTruthyOptList ord ∧
     hasKey (get_assets_collection_request fi limit skip w ord loc p).vars "locale"
        = pyTruthyOptStr loc ∧
     (get_assets_collection_request fi limit skip w ord loc p).vars.all
        (fun kv => !isNullV kv.snd) = true) := by
  rcases limit with _ | ln <;> rcases skip with _ | sn <;>
  rcases w with _ | (_ | ⟨wh, wt⟩) <;> rcases ord with _ | (_ | ⟨oh, ot⟩) <;>
  rcases loc with _ | ls <;>
  first
    | (by_cases hls : ls.isEmpty <;>
        simp [get_entries_collection_request, get_assets_collection_request, hasKey,
          isNullV, pyTruthyOptDict, pyTruthyOptList, pyTruthyOptStr, hls])
    | simp [get_entries_collection_request, get_assets_collection_request, hasKey,
        isNullV, pyTruthyOptDict, pyTruthyOptList, pyTruthyOptStr]

/-- Claim C6: on any input whose normalization (replacing `-` and `_` by
spaces) yields exactly one token identical to the normalized input — that
is, no separators are present — `toCamelCase` lower-cases exactly the first
character and `toPascalCase` upper-cases exactly the first character,
preserving every other character exactly. For single-character inputs the
code performs a full lower-casing (respectively upper-casing), which on one
character coincides with changing the first character, so the stated
conclusion covers both clauses of the claim. The two hypotheses state the
one-token condition exactly as the claim does. -/
theorem claim6_single_token_case (s : String)
    (hnorm : pyNormSep s = s) (hsplit : pySplit s = [s]) :
    to_camel_case s = String.mk (lowerFirstL s.data) ∧
    to_pascal_case s = String.mk (upperFirstL s.data) := by
  have hne : s ≠ "" := by
    intro h
    rw [h] at hsplit
    exact absurd hsplit (by decide)
  have hcam : to_camel_case s
      = if s.length > 1 then String.mk (lowerFirstL s.data) else pyLowerStr s := by
    simp only [to_camel_case]
    rw [hnorm, hsplit]
    simp [hne]
  have hpas : to_pascal_case s
      = if s.length > 1 then String.mk (upperFirstL s.data) else pyUpperStr s := by
    simp only [to_pascal_case]
    rw [hnorm, hsplit]
    simp [hne]
  obtain ⟨l⟩ := s
  rcases l with _ | ⟨c, cs⟩
  · exact absurd rfl hne
  · rcases cs with _ | ⟨c2, cs2⟩
    · refine ⟨hcam.trans ?_, hpas.trans ?_⟩
      · simp [String.length, pyLowerStr, lowerFirstL]
      · simp [String.length, pyUpperStr, upperFirstL]
    · refine ⟨hcam.trans ?_, hpas.trans ?_⟩
      · simp [String.length]
      · simp [String.length]

/-- Witness for claim C6 at the separator-free input `MyContentType`: only
the first character changes case. -/
theorem claim6_single_token_case_witness :
    to_camel_case "MyContentType" = "myContentType" ∧
    to_pascal_case "MyContentType" = "MyContentType" := by
  have h := claim6_single_token_case "MyContentType" (by decide) (by decide)
  exact ⟨h.1.trans (by decide), h.2.trans (by decide)⟩

end Contentful
